import Mathlib

/-!
Verification of the TLO health-system / tb module against its specification.

The definitions below are a shallow embedding of the Python sources
`tlo/methods/healthsystem.py`, `tlo/methods/tb.py` and
`tlo/methods/hsi_generic_first_appts.py`.  Dates follow the pandas
`Timestamp` / `DateOffset` calendar semantics at day granularity.
-/

set_option autoImplicit false

namespace TLO

/-! ## Calendar dates (pandas `Timestamp` at day granularity, `DateOffset`) -/

/-- A calendar date: year, month (1-12) and day of month (1-31). -/
structure Date where
  year : Int
  month : Nat
  day : Nat
deriving Repr, DecidableEq

/-- Gregorian leap-year rule used by pandas timestamps. -/
def isLeapYear (y : Int) : Bool :=
  (y % 4 == 0 && y % 100 != 0) || (y % 400 == 0)

/-- Number of days in a given month of a given year. -/
def daysInMonth (y : Int) (m : Nat) : Nat :=
  if m = 2 then (if isLeapYear y then 29 else 28)
  else if m = 4 ∨ m = 6 ∨ m = 9 ∨ m = 11 then 30
  else 31

/-- A date is valid when its month and day lie in calendar range. -/
def Date.valid (dt : Date) : Prop :=
  1 ≤ dt.month ∧ dt.month ≤ 12 ∧ 1 ≤ dt.day ∧ dt.day ≤ daysInMonth dt.year dt.month

instance (dt : Date) : Decidable dt.valid := by
  unfold Date.valid; infer_instance

/-- Chronological order on dates (lexicographic year, month, day). -/
def Date.le (a b : Date) : Prop :=
  a.year < b.year ∨ (a.year = b.year ∧ (a.month < b.month ∨ (a.month = b.month ∧ a.day ≤ b.day)))

instance (a b : Date) : Decidable (a.le b) := by
  unfold Date.le; infer_instance

/-- The next calendar day. -/
def Date.succDay (dt : Date) : Date :=
  if dt.day < daysInMonth dt.year dt.month then ⟨dt.year, dt.month, dt.day + 1⟩
  else if dt.month < 12 then ⟨dt.year, dt.month + 1, 1⟩
  else ⟨dt.year + 1, 1, 1⟩

/-- Adding `n` days, as `Timestamp + DateOffset(days=n)`. -/
def Date.addDays (dt : Date) : Nat → Date
  | 0 => dt
  | n + 1 => (dt.addDays n).succDay

/-- Adding `k` calendar months, as `Timestamp + DateOffset(months=k)`:
the day of month is clamped to the length of the target month. -/
def Date.addMonths (dt : Date) (k : Nat) : Date :=
  ⟨dt.year + ((dt.month - 1 + k) / 12 : Nat),
   (dt.month - 1 + k) % 12 + 1,
   min dt.day (daysInMonth (dt.year + ((dt.month - 1 + k) / 12 : Nat)) ((dt.month - 1 + k) % 12 + 1))⟩

/-- A pandas `DateOffset` restricted to the fields the sources use. -/
structure DateOffset where
  months : Nat
  days : Nat
deriving Repr, DecidableEq

/-- `Timestamp + DateOffset(months=..., days=...)`. -/
def Date.addOffset (dt : Date) (o : DateOffset) : Date :=
  (dt.addMonths o.months).addDays o.days

/-! ## The entity table

A person is a row of `population.props`; the fields below are the columns
the embedded functions read or write.  The table itself is the map from a
person id to its row. -/

/-- Level of tb-specific symptoms (`tb_specific_symptoms` categorical column). -/
inductive TbSymptoms where
  | none
  | latent
  | active
deriving Repr, DecidableEq

/-- A row of the entity table, restricted to the columns used by the
embedded functions. -/
structure Person where
  is_alive : Bool
  Distance_To_Nearest_HealthFacility : Rat
  age_years : Int
  village_of_residence : String
  hv_inf : Bool
  tb_specific_symptoms : TbSymptoms
deriving Repr, DecidableEq

/-- The entity table: `population.props`, addressed by person id. -/
def EntityTable : Type := Nat → Person

/-! ## `HealthSystem.query_access_to_service` (healthsystem.py lines 114-134) -/

/-- The decision record built by `query_access_to_service`, together with
the logged payload. -/
structure ServiceQueryResult where
  policy_allows : Bool
  enough_capacity : Bool
  gets_service : Bool
  logged_person_id : Nat
  logged_service : String
deriving Repr, DecidableEq

/-- `HealthSystem.query_access_to_service(person_id, service)`: the three
flags are set to `True` unconditionally ("No constraint imposed"), the
request is logged, and `gets_service` is returned. -/
def query_access_to_service (person_id : Nat) (service : String) : ServiceQueryResult :=
  let enough_capacity := true
  let policy_allows := true
  let gets_service := true
  { policy_allows := policy_allows
    enough_capacity := enough_capacity
    gets_service := gets_service
    logged_person_id := person_id
    logged_service := service }

/-! ## `HealthSystem.register_disease_module` (healthsystem.py lines 100-107) -/

/-- A disease module, reduced to the data `register_disease_module` uses. -/
structure DiseaseModule where
  name : String
deriving Repr, DecidableEq

/-- `HealthSystem.register_disease_module(*new_disease_modules)`: each module
is added to `registered_disease_modules` keyed by its name; a name collision
trips the `assert` and aborts with the duplicate-registration message. -/
def register_disease_module (new_disease_modules : List DiseaseModule)
    (registered : List (String × DiseaseModule)) :
    Except String (List (String × DiseaseModule)) :=
  match new_disease_modules with
  | [] => .ok registered
  | m :: rest =>
    if m.name ∈ registered.map Prod.fst then
      .error ("A module named " ++ m.name ++ " has already been registered")
    else
      register_disease_module rest (registered ++ [(m.name, m)])

/-! ## `HealthSystem.on_birth` (healthsystem.py lines 95-98) -/

/-- `HealthSystem.on_birth(mother_id, child_id)`: copy the mother's
`Distance_To_Nearest_HealthFacility` cell onto the child's row. -/
def healthsystem_on_birth (df : EntityTable) (mother_id child_id : Nat) : EntityTable :=
  fun i =>
    if i = child_id then
      { df i with
          Distance_To_Nearest_HealthFacility :=
            (df mother_id).Distance_To_Nearest_HealthFacility }
    else df i

/-! ## `HealthCareSeekingPoll` and `HealthSystem.initialise_simulation`
(healthsystem.py lines 82-92 and 140-145) -/

/-- The recurrence frequency of `HealthCareSeekingPoll`:
`super().__init__(module, frequency=DateOffset(months=3))`. -/
def healthCareSeekingPollFrequency : DateOffset := ⟨3, 0⟩

/-- One row of the village-to-facility mapping resource table. -/
structure VillageFacilityLink where
  Village : String
  Facility : String
deriving Repr, DecidableEq

/-- `HealthSystem.initialise_simulation(sim)`: schedule the
`HealthCareSeekingPoll` on the primary queue at `sim.date`, then assert that
every alive person's village has at least one attached health facility in
the mapping; a failing assertion aborts the run.  The result is the list of
`(event name, date)` pairs pushed onto the primary queue. -/
def healthsystem_initialise_simulation (simDate : Date) (populationIds : List Nat)
    (df : EntityTable) (mapping : List VillageFacilityLink) :
    Except String (List (String × Date)) :=
  let scheduled := [("HealthCareSeekingPoll", simDate)]
  if (populationIds.filter (fun i => (df i).is_alive)).all
      (fun i => mapping.any (fun link => link.Village = (df i).village_of_residence)) then
    .ok scheduled
  else
    .error "assert len(my_health_facilities)>0"

/-! ## Individual-scope interaction events (healthsystem.py lines 240-313)

Each `apply` is embedded as a function from the pre-state to the effects it
performs: the resulting entity table, the module hooks it invokes (module
name, person id, cue type), the events it schedules and the log records it
emits. -/

/-- The observable effects of running one event's `apply`. -/
structure EventEffects where
  table : EntityTable
  hooks : List (String × Nat × String)
  scheduled : List (String × Nat)
  logs : List String

/-- `FirstApptHealthSystemInteraction.apply(person_id)`: guarded by
`df.at[person_id, 'is_alive']`; when alive it triggers
`on_first_healthsystem_interaction` on every registered disease module and
logs the interaction; otherwise nothing happens. -/
def firstAppt_apply (df : EntityTable) (registered_disease_modules : List String)
    (person_id : Nat) (cue_type : String) : EventEffects :=
  if (df person_id).is_alive then
    { table := df
      hooks := registered_disease_modules.map (fun m => (m, person_id, cue_type))
      scheduled := []
      logs := ["InteractionWithHealthSystem_FirstAppt"] }
  else
    { table := df, hooks := [], scheduled := [], logs := [] }

/-- `FollowupHealthSystemInteraction.apply(person_id)`: guarded by
`df.at[person_id, 'is_alive']`; when alive it only logs the follow-up. -/
def followup_apply (df : EntityTable) (person_id : Nat) : EventEffects :=
  if (df person_id).is_alive then
    { table := df, hooks := [], scheduled := [], logs := ["InteractionWithHealthSystem_Followups"] }
  else
    { table := df, hooks := [], scheduled := [], logs := [] }

/-- `EmergencyHealthSystemInteraction.apply(person_id)`: with no `is_alive`
guard, it calls `self.module.on_first_healthsystem_interaction(person_id,
'Emergency')` and logs the interaction unconditionally. -/
def emergency_apply (df : EntityTable) (module_name : String) (person_id : Nat) :
    EventEffects :=
  { table := df
    hooks := [(module_name, person_id, "Emergency")]
    scheduled := []
    logs := ["InteractionWithHealthSystem_Followups"] }

/-! ## `tb.report_daly_values` (tb.py lines 357-375)

The population dataframe is the list of rows in index order; row `i` of the
list is the person with id `i`.  The function selects the
`tb_specific_symptoms` column over the alive rows, maps the symptom level
through the daly-weight dictionary, and finally re-selects on `is_alive`. -/

/-- The daly-weight dictionary `{'none': 0, 'latent': 0, 'active':
params['daly_wt_susc_tb']}` applied to one symptom level. -/
def tbSymptomDalyValue (daly_wt_susc_tb : Rat) : TbSymptoms → Rat
  | .none => 0
  | .latent => 0
  | .active => daly_wt_susc_tb

/-- `tb.report_daly_values()`: the returned series, as the list of
`(person id, disability weight)` pairs in row order. -/
def tb_report_daly_values (rows : List Person) (daly_wt_susc_tb : Rat) :
    List (Nat × Rat) :=
  let health_values :=
    ((rows.enum.filter (fun ip => ip.2.is_alive)).map
      (fun ip => (ip.1, tbSymptomDalyValue daly_wt_susc_tb ip.2.tb_specific_symptoms)))
  health_values.filter (fun iv =>
    match rows[iv.1]? with
    | some p => p.is_alive
    | Option.none => false)

/-! ## HSI events of the tb module

`HSI_Event` itself lives in the newer `healthsystem.py` that is not part of
this source tree; the data every tb HSI event carries
(TREATMENT_ID, EXPECTED_APPT_FOOTPRINT, ACCEPTED_FACILITY_LEVEL,
ALERT_OTHER_DISEASES) is embedded directly. -/

/-- Modelled from the spec: `HealthSystem.get_blank_appt_footprint()` is not
in this source tree; per the specification it "returns a fresh zero-valued
footprint mapping", one entry per named appointment type. -/
def get_blank_appt_footprint (apptTypes : List String) : List (String × Rat) :=
  apptTypes.map (fun a => (a, 0))

/-- Assignment `footprint[key] = value` on a dict-like footprint: update the
entry in place when the key exists, append it otherwise. -/
def footprintSet (fp : List (String × Rat)) (key : String) (value : Rat) :
    List (String × Rat) :=
  if fp.any (fun e => e.1 = key) then
    fp.map (fun e => if e.1 = key then (key, value) else e)
  else fp ++ [(key, value)]

/-- The static data of an HSI event instance. -/
structure HsiEventData where
  TREATMENT_ID : String
  EXPECTED_APPT_FOOTPRINT : List (String × Rat)
  ACCEPTED_FACILITY_LEVEL : Nat
  ALERT_OTHER_DISEASES : List String
  target : Nat
deriving Repr, DecidableEq

/-- `HSI_TbScreening.__init__` (tb.py lines 986-997): a blank footprint with
`Over5OPD = 0.5`, TREATMENT_ID `'Tb_Testing'`, facility level 1, alerting
`'hiv'`. -/
def mkHSI_TbScreening (apptTypes : List String) (person_id : Nat) : HsiEventData :=
  { TREATMENT_ID := "Tb_Testing"
    EXPECTED_APPT_FOOTPRINT :=
      footprintSet (get_blank_appt_footprint apptTypes) "Over5OPD" (1 / 2)
    ACCEPTED_FACILITY_LEVEL := 1
    ALERT_OTHER_DISEASES := ["hiv"]
    target := person_id }

/-- A call to `HealthSystem.schedule_hsi_event(event, priority, topen,
tclose)`. -/
structure HsiScheduleRequest where
  event : HsiEventData
  priority : Nat
  topen : Date
  tclose : Option Date
deriving Repr, DecidableEq

/-- `tb.on_hsi_alert(person_id, treatment_id)` (tb.py lines 334-354): only a
`'Tb_screening'` alert does anything — it builds an `HSI_TbScreening`,
renames its TREATMENT_ID to `'ChronicSyndrome_PiggybackAppt'`, multiplies
every footprint entry by 0.25 and schedules it at priority 0 opening today
with no expiry.  The result is the list of secondary-queue requests made. -/
def tb_on_hsi_alert (apptTypes : List String) (simDate : Date) (person_id : Nat)
    (treatment_id : String) : List HsiScheduleRequest :=
  if treatment_id = "Tb_screening" then
    let piggy_back0 := mkHSI_TbScreening apptTypes person_id
    let piggy_back1 := { piggy_back0 with TREATMENT_ID := "ChronicSyndrome_PiggybackAppt" }
    let piggy_back2 :=
      { piggy_back1 with
          EXPECTED_APPT_FOOTPRINT :=
            piggy_back1.EXPECTED_APPT_FOOTPRINT.map (fun kv => (kv.1, kv.2 * (1 / 4))) }
    [{ event := piggy_back2, priority := 0, topen := simDate, tclose := Option.none }]
  else []

/-! ## `did_not_run` across the HSI event types (C4)

One constructor per HSI event class defined in the sources. -/

/-- The HSI event classes of `hsi_generic_first_appts.py` and `tb.py`. -/
inductive HsiEventType where
  | GenericFirstApptAtFacilityLevel1
  | GenericFirstApptAtFacilityLevel0
  | TbScreening
  | Tb_SputumTest
  | Tb_XpertTest
  | Tb_StartTreatmentAdult
  | Tb_StartTreatmentChild
  | Tb_StartMdrTreatment
  | Tb_RetreatmentAdult
  | Tb_RetreatmentChild
  | Tb_FollowUp
  | Tb_Ipt
  | Tb_IptHiv
deriving Repr, DecidableEq

/-- Modelled from the spec: the `HSI_Event` base class (in the
`healthsystem.py` version that is not part of this source tree) supplies the
default failure hook; per the specification `did_not_run` "is the sole
failure-reporting hook and is never fatal; the event is simply dropped", so
the default returns the table unchanged. -/
def hsiEventBase_did_not_run (df : EntityTable) : Except String EntityTable :=
  .ok df

/-- `did_not_run()` of each HSI event class.  Every override in the sources
is `pass` or a single `logger.debug` call; `HSI_Tb_IptHiv` defines no
override and inherits the base hook. -/
def hsi_did_not_run (e : HsiEventType) (df : EntityTable) : Except String EntityTable :=
  match e with
  | .GenericFirstApptAtFacilityLevel1 => .ok df
  | .GenericFirstApptAtFacilityLevel0 => .ok df
  | .TbScreening => .ok df
  | .Tb_SputumTest => .ok df
  | .Tb_XpertTest => .ok df
  | .Tb_StartTreatmentAdult => .ok df
  | .Tb_StartTreatmentChild => .ok df
  | .Tb_StartMdrTreatment => .ok df
  | .Tb_RetreatmentAdult => .ok df
  | .Tb_RetreatmentChild => .ok df
  | .Tb_FollowUp => .ok df
  | .Tb_Ipt => .ok df
  | .Tb_IptHiv => hsiEventBase_did_not_run df

/-! ## Admission windows of the tb module's secondary-queue calls (C5) -/

/-- The `(topen, tclose)` window passed at one scheduling call site. -/
structure WindowSpec where
  topen : Date
  tclose : Option Date
deriving Repr, DecidableEq

/-- The follow-up window of the treatment-initiation events
(e.g. tb.py lines 1406-1412): `topen = sim.date + DateOffset(months=w)` and
`tclose = topen + DateOffset(days=3)`. -/
def followupWindow (now : Date) (w : Nat) : WindowSpec :=
  { topen := now.addOffset ⟨w, 0⟩
    tclose := some ((now.addOffset ⟨w, 0⟩).addOffset ⟨0, 3⟩) }

/-- Every `(topen, tclose)` pair passed to the health-system scheduler from
`tb.py`, as a function of the current date and of the
`followup_times.loc['treatment']` month offsets.  In source order:
`on_hsi_alert` (line 351), `HSI_TbScreening.apply` (1014, 1025),
`HSI_Tb_SputumTest.apply` (1112, 1126, 1138, 1150, 1162, 1186),
`HSI_Tb_XpertTest.apply` (1262, 1274, 1287, 1299, 1311, 1323, 1333),
the five treatment/retreatment `apply` loops (1408, 1477, 1546, 1615, 1685),
`HSI_Tb_FollowUp.apply` (1775) and `TbIptEndEvent.apply` (1922). -/
def tbScheduleWindows (now : Date) (followupTimes : List Nat) : List WindowSpec :=
  [⟨now, Option.none⟩]
  ++ [⟨now, Option.none⟩, ⟨now, Option.none⟩]
  ++ [⟨now.addOffset ⟨0, 1⟩, Option.none⟩, ⟨now.addOffset ⟨0, 1⟩, Option.none⟩,
      ⟨now.addOffset ⟨0, 1⟩, Option.none⟩, ⟨now.addOffset ⟨0, 1⟩, Option.none⟩,
      ⟨now.addOffset ⟨0, 1⟩, Option.none⟩, ⟨now.addOffset ⟨0, 1⟩, Option.none⟩]
  ++ [⟨now, Option.none⟩, ⟨now, Option.none⟩, ⟨now, Option.none⟩, ⟨now, Option.none⟩,
      ⟨now, Option.none⟩, ⟨now, Option.none⟩, ⟨now, Option.none⟩]
  ++ followupTimes.map (followupWindow now)
  ++ followupTimes.map (followupWindow now)
  ++ followupTimes.map (followupWindow now)
  ++ followupTimes.map (followupWindow now)
  ++ followupTimes.map (followupWindow now)
  ++ [⟨now, Option.none⟩]
  ++ [⟨now, Option.none⟩]

/-- The window invariant of one scheduling call: `topen` is not before the
current date, and `topen <= tclose` whenever `tclose` is set. -/
def windowRespects (now : Date) (w : WindowSpec) : Prop :=
  now.le w.topen ∧
    match w.tclose with
    | Option.none => True
    | some tc => w.topen.le tc

instance : (now : Date) → (w : WindowSpec) → Decidable (windowRespects now w)
  | now, ⟨topen, Option.none⟩ => inferInstanceAs (Decidable (now.le topen ∧ True))
  | now, ⟨topen, some tc⟩ => inferInstanceAs (Decidable (now.le topen ∧ topen.le tc))

/-! ## Service-availability wildcard matching (C8) -/

/-- Whether the first character sequence is a prefix of the second. -/
def isCharListPrefix : List Char → List Char → Bool
  | [], _ => true
  | _ :: _, [] => false
  | c :: cs, d :: ds => c == d && isCharListPrefix cs ds

/-- Modelled from the spec: the TREATMENT_ID policy matching of the
Health-System Scheduler is not in this source tree (the tests configure
`service_availability = ['Mockitis*', 'ChronicSyndrome*']`); per the
specification "a pattern ending in a wildcard matches by prefix", and a
pattern without the trailing wildcard matches exactly. -/
def treatmentIdMatches (pattern treatment_id : String) : Bool :=
  if pattern.data.getLast? = some '*' then
    isCharListPrefix pattern.data.dropLast treatment_id.data
  else pattern == treatment_id

/-- Modelled from the spec: "absence of any entry means allow-all";
otherwise a TREATMENT_ID is allowed when some policy pattern matches it. -/
def serviceIsAllowed (policy : List String) (treatment_id : String) : Bool :=
  policy.isEmpty || policy.any (fun pat => treatmentIdMatches pat treatment_id)

/-! ## Fixed inhabitants used by counterexamples and witnesses -/

/-- A table whose every row is dead. -/
def deadOnlyTable : EntityTable := fun _ => ⟨false, 0, 0, "village", false, .none⟩

/-- A single alive row with active tb. -/
def activeAlivePerson : Person := ⟨true, 0, 30, "village", false, .active⟩

/-! ## Date arithmetic lemmas -/

theorem one_le_daysInMonth (y : Int) (m : Nat) : 1 ≤ daysInMonth y m := by
  unfold daysInMonth
  split
  · split <;> omega
  · split <;> omega

theorem Date.le_refl (a : Date) : a.le a := by
  unfold Date.le; omega

theorem Date.le_trans {a b c : Date} (h1 : a.le b) (h2 : b.le c) : a.le c := by
  unfold Date.le at *; omega

theorem Date.le_succDay (dt : Date) : dt.le dt.succDay := by
  unfold Date.succDay Date.le
  split
  · simp
  · split <;> simp

theorem Date.le_addDays (dt : Date) (n : Nat) : dt.le (dt.addDays n) := by
  induction n with
  | zero => exact dt.le_refl
  | succ n ih => exact Date.le_trans ih (Date.le_succDay _)

theorem Date.le_addMonths (dt : Date) (h : dt.valid) (k : Nat) : dt.le (dt.addMonths k) := by
  obtain ⟨h1, h2, h3, h4⟩ := h
  unfold Date.addMonths Date.le
  dsimp only
  by_cases hk : k = 0
  · subst hk
    simp only [Nat.add_zero]
    have e1 : (dt.month - 1) / 12 = 0 := by omega
    have e2 : (dt.month - 1) % 12 + 1 = dt.month := by omega
    rw [e1, e2]
    simp only [Nat.cast_zero, add_zero]
    rw [min_eq_left h4]
    simp
  · omega

theorem Date.succDay_valid (dt : Date) (h : dt.valid) : dt.succDay.valid := by
  obtain ⟨h1, h2, h3, h4⟩ := h
  have g1 := one_le_daysInMonth dt.year (dt.month + 1)
  have g2 := one_le_daysInMonth (dt.year + 1) 1
  unfold Date.succDay
  split
  · simp only [Date.valid]; omega
  · split <;> (simp only [Date.valid]; omega)

theorem Date.addDays_valid (dt : Date) (h : dt.valid) (n : Nat) : (dt.addDays n).valid := by
  induction n with
  | zero => exact h
  | succ n ih => exact (dt.addDays n).succDay_valid ih

theorem Date.addMonths_valid (dt : Date) (h : dt.valid) (k : Nat) : (dt.addMonths k).valid := by
  obtain ⟨h1, h2, h3, h4⟩ := h
  have g := one_le_daysInMonth (dt.year + ((dt.month - 1 + k) / 12 : Nat)) ((dt.month - 1 + k) % 12 + 1)
  unfold Date.addMonths
  simp only [Date.valid]
  omega

theorem Date.le_addOffset (dt : Date) (h : dt.valid) (o : DateOffset) : dt.le (dt.addOffset o) :=
  Date.le_trans (dt.le_addMonths h o.months) ((dt.addMonths o.months).le_addDays o.days)

theorem Date.addOffset_valid (dt : Date) (h : dt.valid) (o : DateOffset) :
    (dt.addOffset o).valid :=
  (dt.addMonths o.months).addDays_valid (dt.addMonths_valid h o.months) o.days

/-! ## Claim theorems -/

/-- C1 (counterexample): `EmergencyHealthSystemInteraction.apply` has no
`is_alive` guard — applied to a dead person (id 0 of the all-dead table) it
still invokes the owning module's `on_first_healthsystem_interaction` hook,
so it is not true that every individual-scope event is a no-op on the dead. -/
theorem emergency_interaction_fires_on_dead_person :
    (deadOnlyTable 0).is_alive = false ∧
    (emergency_apply deadOnlyTable "tb" 0).hooks = [("tb", 0, "Emergency")] :=
  ⟨rfl, rfl⟩

/-- C1 (amended): the individual-scope interaction events that do guard on
`is_alive` — `FirstApptHealthSystemInteraction` and
`FollowupHealthSystemInteraction` — perform no side-effecting logic on a
dead target: the entity table is unchanged, no module hook is invoked, no
event is scheduled and nothing is logged. -/
theorem guarded_interactions_noop_on_dead (df : EntityTable)
    (registered_disease_modules : List String) (person_id : Nat) (cue_type : String)
    (h : (df person_id).is_alive = false) :
    firstAppt_apply df registered_disease_modules person_id cue_type =
      { table := df, hooks := [], scheduled := [], logs := [] } ∧
    followup_apply df person_id =
      { table := df, hooks := [], scheduled := [], logs := [] } := by
  unfold firstAppt_apply followup_apply
  rw [h]
  simp

/-- C1 (witness): the no-op conclusion at a concrete dead person. -/
theorem guarded_interactions_noop_on_dead_witness :
    firstAppt_apply deadOnlyTable ["tb"] 0 "HealthCareSeekingPoll" =
      { table := deadOnlyTable, hooks := [], scheduled := [], logs := [] } ∧
    followup_apply deadOnlyTable 0 =
      { table := deadOnlyTable, hooks := [], scheduled := [], logs := [] } :=
  guarded_interactions_noop_on_dead deadOnlyTable ["tb"] 0 "HealthCareSeekingPoll" rfl

/-- C2 (counterexample): the recurring health-care-seeking pass is created
with `frequency=DateOffset(months=3)`, not with a frequency of one day. -/
theorem healthcare_seeking_poll_not_daily :
    healthCareSeekingPollFrequency ≠ { months := 0, days := 1 } ∧
    healthCareSeekingPollFrequency.months = 3 := by
  decide

/-- C2 (amended): `HealthSystem.initialise_simulation` schedules the
`HealthCareSeekingPoll` on the primary queue at the current simulation date,
and the poll recurs every three months (there is no daily secondary-queue
drain in this version of the health system). -/
theorem healthcare_seeking_poll_schedule (simDate : Date) (populationIds : List Nat)
    (df : EntityTable) (mapping : List VillageFacilityLink)
    (scheduled : List (String × Date))
    (h : healthsystem_initialise_simulation simDate populationIds df mapping = .ok scheduled) :
    scheduled = [("HealthCareSeekingPoll", simDate)] ∧
    healthCareSeekingPollFrequency = { months := 3, days := 0 } := by
  unfold healthsystem_initialise_simulation at h
  refine ⟨?_, rfl⟩
  split at h
  · cases h
    rfl
  · cases h

/-- C2 (witness): the scheduling conclusion at a concrete empty population. -/
theorem healthcare_seeking_poll_schedule_witness :
    ([("HealthCareSeekingPoll", (⟨2010, 1, 1⟩ : Date))] : List (String × Date)) =
      [("HealthCareSeekingPoll", (⟨2010, 1, 1⟩ : Date))] ∧
    healthCareSeekingPollFrequency = { months := 3, days := 0 } :=
  healthcare_seeking_poll_schedule ⟨2010, 1, 1⟩ [] deadOnlyTable [] _ rfl

/-- C3: `query_access_to_service` grants every request — for every person id
and every service the returned `gets_service` flag is `True` (the capacity
and policy flags are likewise unconstrained). -/
theorem query_access_to_service_always_granted (person_id : Nat) (service : String) :
    (query_access_to_service person_id service).gets_service = true ∧
    (query_access_to_service person_id service).policy_allows = true ∧
    (query_access_to_service person_id service).enough_capacity = true :=
  ⟨rfl, rfl, rfl⟩

/-- C4: `did_not_run()` of every HSI event class never raises and leaves
the entity table unchanged: it returns `ok` with the unmodified table. -/
theorem hsi_did_not_run_never_fatal (e : HsiEventType) (df : EntityTable) :
    hsi_did_not_run e df = .ok df := by
  cases e <;> rfl

/-- C6: `register_disease_module` appends each given module keyed by its
name — on success the registry is the old registry extended with the new
`(name, module)` pairs in order — and a collision with an already-registered
name aborts with the duplicate-registration error. -/
theorem register_disease_module_spec :
    (∀ (new_disease_modules : List DiseaseModule)
       (registered out : List (String × DiseaseModule)),
       register_disease_module new_disease_modules registered = .ok out →
       out = registered ++ new_disease_modules.map (fun m => (m.name, m))) ∧
    (∀ (new_disease_modules : List DiseaseModule)
       (registered : List (String × DiseaseModule)),
       (∃ m ∈ new_disease_modules, m.name ∈ registered.map Prod.fst) →
       ∃ msg, register_disease_module new_disease_modules registered = .error msg) := by
  constructor
  · intro new_disease_modules
    induction new_disease_modules with
    | nil =>
      intro registered out h
      unfold register_disease_module at h
      cases h
      simp
    | cons m rest ih =>
      intro registered out h
      unfold register_disease_module at h
      split at h
      · cases h
      · have := ih (registered ++ [(m.name, m)]) out h
        simpa [List.append_assoc] using this
  · intro new_disease_modules
    induction new_disease_modules with
    | nil =>
      intro registered h
      obtain ⟨m, hm, _⟩ := h
      cases hm
    | cons m rest ih =>
      intro registered h
      unfold register_disease_module
      split
      · exact ⟨_, rfl⟩
      · obtain ⟨m', hm', hname⟩ := h
        rcases List.mem_cons.mp hm' with rfl | hrest
        · exact absurd hname (by assumption)
        · refine ih (registered ++ [(m.name, m)]) ⟨m', hrest, ?_⟩
          simp only [List.map_append, List.mem_append]
          exact Or.inl hname

/-- C6 (witness): a concrete successful registration and a concrete
duplicate-name failure. -/
theorem register_disease_module_spec_witness :
    ([("hiv", DiseaseModule.mk "hiv"), ("tb", DiseaseModule.mk "tb")] :
        List (String × DiseaseModule)) =
      [("hiv", DiseaseModule.mk "hiv")] ++
        [DiseaseModule.mk "tb"].map (fun m => (m.name, m)) ∧
    ∃ msg, register_disease_module [DiseaseModule.mk "hiv"]
        [("hiv", DiseaseModule.mk "hiv")] = .error msg :=
  ⟨register_disease_module_spec.1 [DiseaseModule.mk "tb"]
      [("hiv", DiseaseModule.mk "hiv")]
      [("hiv", DiseaseModule.mk "hiv"), ("tb", DiseaseModule.mk "tb")] rfl,
   register_disease_module_spec.2 [DiseaseModule.mk "hiv"]
      [("hiv", DiseaseModule.mk "hiv")]
      ⟨DiseaseModule.mk "hiv", by simp, by simp⟩⟩

/-- C9: `HealthSystem.on_birth` sets the child's
`Distance_To_Nearest_HealthFacility` to the mother's current value, leaves
every other column of the child's row unchanged, and leaves every other
row of the table untouched. -/
theorem on_birth_frame (df : EntityTable) (mother_id child_id : Nat) :
    (healthsystem_on_birth df mother_id child_id child_id).Distance_To_Nearest_HealthFacility
      = (df mother_id).Distance_To_Nearest_HealthFacility ∧
    (healthsystem_on_birth df mother_id child_id child_id).is_alive
      = (df child_id).is_alive ∧
    (healthsystem_on_birth df mother_id child_id child_id).age_years
      = (df child_id).age_years ∧
    (healthsystem_on_birth df mother_id child_id child_id).village_of_residence
      = (df child_id).village_of_residence ∧
    (healthsystem_on_birth df mother_id child_id child_id).hv_inf
      = (df child_id).hv_inf ∧
    (healthsystem_on_birth df mother_id child_id child_id).tb_specific_symptoms
      = (df child_id).tb_specific_symptoms ∧
    (∀ i, i ≠ child_id → healthsystem_on_birth df mother_id child_id i = df i) := by
  unfold healthsystem_on_birth
  refine ⟨by simp, by simp, by simp, by simp, by simp, by simp, ?_⟩
  intro i hi
  simp [hi]

/-- C9 (witness): the frame conclusion at concrete ids. -/
theorem on_birth_frame_witness :
    (healthsystem_on_birth deadOnlyTable 0 1 1).Distance_To_Nearest_HealthFacility
      = (deadOnlyTable 0).Distance_To_Nearest_HealthFacility ∧
    healthsystem_on_birth deadOnlyTable 0 1 5 = deadOnlyTable 5 :=
  ⟨(on_birth_frame deadOnlyTable 0 1).1,
   (on_birth_frame deadOnlyTable 0 1).2.2.2.2.2.2 5 (by decide)⟩

/-- C8: a pattern ending in the wildcard matches a TREATMENT_ID by prefix —
`"X*"` matches `"X"`, `"XY"` and `"X_Y"` but not `"YX"` — and an empty
service-availability policy allows every TREATMENT_ID. -/
theorem wildcard_matching_spec :
    treatmentIdMatches "X*" "X" = true ∧
    treatmentIdMatches "X*" "XY" = true ∧
    treatmentIdMatches "X*" "X_Y" = true ∧
    treatmentIdMatches "X*" "YX" = false ∧
    (∀ treatment_id : String, serviceIsAllowed [] treatment_id = true) :=
  ⟨by decide, by decide, by decide, by decide, fun _ => rfl⟩

/-- C10: `tb.on_hsi_alert` reacts only to a `'Tb_screening'` alert, where it
schedules exactly one piggy-back screening HSI — TREATMENT_ID rewritten to
`'ChronicSyndrome_PiggybackAppt'`, every footprint entry scaled by 0.25,
priority 0, opening today with no expiry; every other treatment id
schedules nothing. -/
theorem tb_on_hsi_alert_spec :
    (∀ (apptTypes : List String) (simDate : Date) (person_id : Nat),
       tb_on_hsi_alert apptTypes simDate person_id "Tb_screening" =
         [{ event :=
              { TREATMENT_ID := "ChronicSyndrome_PiggybackAppt"
                EXPECTED_APPT_FOOTPRINT :=
                  (mkHSI_TbScreening apptTypes person_id).EXPECTED_APPT_FOOTPRINT.map
                    (fun kv => (kv.1, kv.2 * (1 / 4)))
                ACCEPTED_FACILITY_LEVEL := 1
                ALERT_OTHER_DISEASES := ["hiv"]
                target := person_id }
            priority := 0
            topen := simDate
            tclose := Option.none }]) ∧
    (∀ (apptTypes : List String) (simDate : Date) (person_id : Nat)
       (treatment_id : String), treatment_id ≠ "Tb_screening" →
       tb_on_hsi_alert apptTypes simDate person_id treatment_id = []) := by
  constructor
  · intro apptTypes simDate person_id
    rfl
  · intro apptTypes simDate person_id treatment_id h
    unfold tb_on_hsi_alert
    rw [if_neg h]

/-- C10 (witness): a non-screening alert at concrete inputs schedules
nothing. -/
theorem tb_on_hsi_alert_spec_witness :
    tb_on_hsi_alert ["Over5OPD"] ⟨2010, 1, 1⟩ 3 "Tb_treatment" = [] :=
  tb_on_hsi_alert_spec.2 ["Over5OPD"] ⟨2010, 1, 1⟩ 3 "Tb_treatment" (by decide)

/-- C5: every admission window passed to the health-system scheduler from
the tb module opens no earlier than the current date and closes no earlier
than it opens, so the scheduler's window validation cannot reject these
calls.  The month offsets are the (nonnegative) `followup_times` entries. -/
theorem tb_schedule_windows_spec (now : Date) (h : now.valid)
    (followupTimes : List Nat) (w : WindowSpec)
    (hw : w ∈ tbScheduleWindows now followupTimes) :
    windowRespects now w := by
  have hnow : windowRespects now ⟨now, Option.none⟩ := ⟨now.le_refl, trivial⟩
  have hnext : windowRespects now ⟨now.addOffset ⟨0, 1⟩, Option.none⟩ :=
    ⟨now.le_addOffset h _, trivial⟩
  have hfu : ∀ a : Nat, windowRespects now (followupWindow now a) := by
    intro a
    refine ⟨now.le_addOffset h _, ?_⟩
    exact (now.addOffset ⟨a, 0⟩).le_addOffset (now.addOffset_valid h _) _
  unfold tbScheduleWindows at hw
  simp only [List.mem_append, List.mem_cons, List.mem_singleton, List.mem_map,
    List.not_mem_nil, or_false] at hw
  rcases hw with (((((((((hw | hw | hw) | (hw | hw | hw | hw | hw | hw)) |
      (hw | hw | hw | hw | hw | hw | hw)) | ⟨a, -, hw⟩) | ⟨a, -, hw⟩) | ⟨a, -, hw⟩) |
      ⟨a, -, hw⟩) | ⟨a, -, hw⟩) | hw) | hw <;>
    subst hw <;>
    first
      | exact hnow
      | exact hnext
      | exact hfu a

/-- C5 (witness): the invariant at a concrete date and follow-up offset. -/
theorem tb_schedule_windows_spec_witness :
    windowRespects ⟨2010, 1, 1⟩ (followupWindow ⟨2010, 1, 1⟩ 2) :=
  tb_schedule_windows_spec ⟨2010, 1, 1⟩ (by decide) [2]
    (followupWindow ⟨2010, 1, 1⟩ 2) (by decide)

/-- C7: `tb.report_daly_values` returns an entry for every alive person and
none for a dead one, the entry's value being the daly weight of that
person's `tb_specific_symptoms` level (0 for `none` and `latent`, the
susceptible-tb weight for `active`). -/
theorem tb_report_daly_values_spec :
    (∀ (rows : List Person) (daly_wt_susc_tb : Rat) (i : Nat) (p : Person),
       rows[i]? = some p → p.is_alive = true →
       (i, tbSymptomDalyValue daly_wt_susc_tb p.tb_specific_symptoms) ∈
         tb_report_daly_values rows daly_wt_susc_tb) ∧
    (∀ (rows : List Person) (daly_wt_susc_tb : Rat) (i : Nat) (v : Rat),
       (i, v) ∈ tb_report_daly_values rows daly_wt_susc_tb →
       ∃ p, rows[i]? = some p ∧ p.is_alive = true ∧
         v = tbSymptomDalyValue daly_wt_susc_tb p.tb_specific_symptoms) ∧
    (∀ daly_wt_susc_tb : Rat,
       tbSymptomDalyValue daly_wt_susc_tb .none = 0 ∧
       tbSymptomDalyValue daly_wt_susc_tb .latent = 0 ∧
       tbSymptomDalyValue daly_wt_susc_tb .active = daly_wt_susc_tb) := by
  refine ⟨?_, ?_, fun _ => ⟨rfl, rfl, rfl⟩⟩
  · intro rows wt i p hp halive
    unfold tb_report_daly_values
    have h1 : (i, p) ∈ rows.enum := List.mk_mem_enum_iff_getElem?.mpr hp
    have h2 : (i, p) ∈ rows.enum.filter (fun ip => ip.2.is_alive) :=
      List.mem_filter.mpr ⟨h1, halive⟩
    have h3 : (i, tbSymptomDalyValue wt p.tb_specific_symptoms) ∈
        (rows.enum.filter (fun ip => ip.2.is_alive)).map
          (fun ip => (ip.1, tbSymptomDalyValue wt ip.2.tb_specific_symptoms)) :=
      List.mem_map.mpr ⟨(i, p), h2, rfl⟩
    refine List.mem_filter.mpr ⟨h3, ?_⟩
    simp [hp, halive]
  · intro rows wt i v hm
    unfold tb_report_daly_values at hm
    obtain ⟨hm', _⟩ := List.mem_filter.mp hm
    obtain ⟨⟨j, p⟩, hfil, heq⟩ := List.mem_map.mp hm'
    obtain ⟨henum, halive⟩ := List.mem_filter.mp hfil
    have hget : rows[j]? = some p := List.mk_mem_enum_iff_getElem?.mp henum
    obtain ⟨rfl, rfl⟩ := Prod.mk.injEq _ _ _ _ ▸ heq
    exact ⟨p, hget, halive, rfl⟩

/-- C7 (witness): the alive-person entry at a concrete one-row population. -/
theorem tb_report_daly_values_spec_witness :
    (0, tbSymptomDalyValue 0 TbSymptoms.active) ∈
      tb_report_daly_values [activeAlivePerson] 0 :=
  tb_report_daly_values_spec.1 [activeAlivePerson] 0 0 activeAlivePerson rfl rfl

end TLO
